import Mathlib

/-!
Verification development for the txlr query-redirection service.

The source is embedded shallowly:
* Queries, URLs and messages are sequences of Unicode code points
  (`List Nat`), mirroring Python `str` values.  Python's `str.lower` /
  `str.upper` are embedded with the ASCII case mapping (non-ASCII code
  points are left unchanged); every character class appearing in the
  source's regular expressions is a plain ASCII class, so all redirector
  outcomes are preserved by this mapping.
* Regular-expression full matches from `redirectors.py` are embedded as
  the equivalent structural conditions on code-point lists (each of the
  source's patterns decomposes deterministically, since the classes
  before a literal `.` never contain `.`).
* Calendar dates from `utils.py` are embedded as proleptic Gregorian
  calendar dates (as used by Python `datetime`/`arrow`), with day
  ordinals counted from 0001-01-01 = day 1, a Monday.  All `arrow`
  values the source constructs and compares are midnight instants in a
  single fixed time zone, so date comparison is ordinal comparison.
-/

/-! ## Code points and the canonicalizer (`utils.canonicalize`) -/

/-- A Python string, as its sequence of Unicode code points. -/
abbrev Str := List Nat

/-- Code points of a Lean string literal. -/
def strL (s : String) : Str := s.data.map Char.toNat

/-- Python `str.lower`, restricted to the ASCII case mapping. -/
def pyLower (c : Nat) : Nat := if 65 ≤ c ∧ c ≤ 90 then c + 32 else c

/-- Python `str.upper`, restricted to the ASCII case mapping. -/
def pyUpper (c : Nat) : Nat := if 97 ≤ c ∧ c ≤ 122 then c - 32 else c

/-- Python `s.replace(' ', '')`: drop every space (code point 32). -/
def removeSpaces (l : Str) : Str := l.filter (fun c => c != 32)

/-- `utils.canonicalize`: `q.lower().replace(' ', '')`. -/
def canonicalize (q : Str) : Str := removeSpaces (q.map pyLower)

/-! ## Redirector results -/

/-- The three result shapes a redirector can return:
`(True, url)`, `(False, None)` and `(False, msg)`. -/
inductive Result where
  | redirect (url : Str)
  | notApplicable
  | rejected (msg : Str)
deriving DecidableEq, Repr

/-! ## The code table (`utils.VALID_CODES`) -/

/-- `utils.VALID_CODES`, the closed table of two-letter code abbreviations. -/
def VALID_CODES : List Str :=
  [strL "CN", strL "AG", strL "AL", strL "WL", strL "BC", strL "BO",
   strL "CP", strL "CR", strL "ED", strL "EL", strL "ES", strL "FA",
   strL "FI", strL "GV", strL "HS", strL "HR", strL "IN", strL "I1",
   strL "LA", strL "LG", strL "NR", strL "OC", strL "PW", strL "PE",
   strL "PR", strL "SD", strL "TX", strL "TN", strL "UT", strL "WA",
   strL "CV"]

/-! ## Character classes of the statute redirector's regular expressions -/

/-- Class `[a-z0-9]` (the two-character code group of the main pattern). -/
def isLowerAlnum (c : Nat) : Bool :=
  (decide (97 ≤ c) && decide (c ≤ 122)) || (decide (48 ≤ c) && decide (c ≤ 57))

/-- Class `[A-Za-z0-9._/()-]` (the section group of the main pattern). -/
def isSectionChar (c : Nat) : Bool :=
  (decide (65 ≤ c) && decide (c ≤ 90)) || (decide (97 ≤ c) && decide (c ≤ 122)) ||
  (decide (48 ≤ c) && decide (c ≤ 57)) || c == 46 || c == 95 || c == 47 ||
  c == 40 || c == 41 || c == 45

/-- Class `[A-Z0-9]`. -/
def isUpperAlnum (c : Nat) : Bool :=
  (decide (65 ≤ c) && decide (c ≤ 90)) || (decide (48 ≤ c) && decide (c ≤ 57))

/-- Tail class of the civil-statutes chapter pattern: uppercase
alphanumerics, underscore, slash and dash. -/
def isCvTailChar (c : Nat) : Bool :=
  isUpperAlnum c || c == 95 || c == 47 || c == 45

/-- Class `[A-Z0-9-]` (the runs in the section shape check). -/
def isSecRunChar (c : Nat) : Bool := isUpperAlnum c || c == 45

/-- Python `str.isalpha` on the ASCII letters (the only letters that can
reach the `postdot[0].isalpha()` test, whose input has already passed the
`[0-9][A-Z0-9-]*([.][A-Z0-9-]*)?` shape check and been uppercased). -/
def pyIsAlpha (c : Nat) : Bool :=
  (decide (65 ≤ c) && decide (c ≤ 90)) || (decide (97 ≤ c) && decide (c ≤ 122))

/-- Full match of the civil-statutes chapter pattern (a nonempty run of
`[A-Z0-9]`, a literal dot, then a nonempty run of the tail class): a
nonempty dot-free alphanumeric run, one dot, then a nonempty dot-free
tail run. -/
def cvChapterOk (s : Str) : Bool :=
  let pre := s.takeWhile (fun c => c != 46)
  let post := s.dropWhile (fun c => c != 46)
  (!pre.isEmpty) && pre.all isUpperAlnum &&
    (match post with
     | 46 :: t => (!t.isEmpty) && t.all isCvTailChar
     | _ => false)

/-- Full match of `[0-9][A-Z0-9-]*([.][A-Z0-9-]*)?`: a digit, a run of
`[A-Z0-9-]`, then optionally one dot and another (possibly empty) run. -/
def sectionShapeOk (s : Str) : Bool :=
  match s with
  | [] => false
  | d :: t =>
    (decide (48 ≤ d) && decide (d ≤ 57)) &&
    (t.takeWhile (fun c => c != 46)).all isSecRunChar &&
    (match t.dropWhile (fun c => c != 46) with
     | [] => true
     | 46 :: u => u.all isSecRunChar
     | _ => false)

/-- Python `section.split('.', 1)` when a dot is present: the part before
the first dot and the part after it. -/
def splitDot (s : Str) : Str × Str :=
  (s.takeWhile (fun c => c != 46), (s.dropWhile (fun c => c != 46)).tail)

/-! ## Messages and URL templates of the statute redirector -/

/-- Message for a code that is not in the code table. -/
def msgInvalidCode : Str := strL "The code of law you gave is invalid"

/-- Message for a malformed civil-statutes chapter number. -/
def msgCvFormat : Str :=
  strL "The Civil Statutes chapter number you gave is invalidly formatted"

/-- Message for a malformed code section number. -/
def msgSectionFormat : Str :=
  strL "The code section number you gave is invalidly formatted; it must start with a number and contain alphanumeric characters, dashes, and at most one decimal point"

/-- The chapter/section document URL template, formatted with a code,
chapter and anchor. -/
def docURL (code chapter anchor : Str) : Str :=
  strL "https://statutes.capitol.texas.gov/docs/" ++ code ++ strL "/htm/" ++
    code ++ strL "." ++ chapter ++ strL ".htm#" ++ anchor

/-- The civil-statutes article-lookup URL template, formatted with a code
and chapter (the `anchor` argument of `str.format` is unused by it). -/
def articleURL (code chapter : Str) : Str :=
  strL "https://statutes.capitol.texas.gov/GetStatute.aspx?DocumentType=Word&Value=" ++
    code ++ strL "." ++ chapter

/-- The code table-of-contents URL template of `statute_toc`. -/
def tocURL (code : Str) : Str :=
  strL "https://statutes.capitol.texas.gov/?link=" ++ code

/-! ## The statute redirector (`redirectors.statute`) -/

/-- Body of `redirectors.statute` after the main pattern has matched,
given the uppercased two-character code and the raw section group. -/
def statuteBody (code sect : Str) : Result :=
  if !(VALID_CODES.contains code) then .rejected msgInvalidCode
  else if code == strL "CV" then
    if sect.contains 46 then
      let s := sect.map pyUpper
      if cvChapterOk s then
        .redirect (docURL code (s.map (fun c => if c == 47 then 95 else c)) [])
      else .rejected msgCvFormat
    else
      .redirect (articleURL code sect)
  else
    let s := sect.map pyUpper
    if !(sectionShapeOk s) then .rejected msgSectionFormat
    else if s.dropLast.contains 46 then
      match (splitDot s).2 with
      | a :: t =>
        if pyIsAlpha a then .redirect (docURL code (splitDot s).1 (a :: t))
        else .redirect (docURL code (splitDot s).1 s)
      | [] =>
        -- unreachable: a dot strictly before the last position leaves a
        -- nonempty part after the first dot
        .redirect (docURL code (splitDot s).1 s)
    else
      let s2 := if s.getLast? == some 46 then s.dropLast else s
      .redirect (docURL code s2 [])

/-- `redirectors.statute`: canonicalize, full-match
`([a-z0-9]{2})([A-Za-z0-9._/()-]+)`, then dispatch on the code. -/
def statute (q : Str) : Result :=
  match canonicalize q with
  | c1 :: c2 :: rest =>
    if isLowerAlnum c1 && isLowerAlnum c2 && (!rest.isEmpty) &&
        rest.all isSectionChar then
      statuteBody [pyUpper c1, pyUpper c2] rest
    else .notApplicable
  | _ => .notApplicable

/-- `redirectors.statute_toc`: canonicalize and uppercase, then match the
query against the code table. -/
def statute_toc (q : Str) : Result :=
  let q2 := (canonicalize q).map pyUpper
  if VALID_CODES.contains q2 then .redirect (tocURL q2)
  else if q2.length == 2 then
    .rejected (strL "The code of law you provided is not valid")
  else .notApplicable

/-! ## The bill-number redirector (`redirectors.house_bill`) -/

/-- Python `str.isascii` on a single code point. -/
def isAsciiCP (c : Nat) : Bool := decide (c < 128)

/-- An ASCII decimal digit (`str.isdigit` on ASCII text). -/
def isDigitCP (c : Nat) : Bool := decide (48 ≤ c) && decide (c ≤ 57)

/-- The bill-history URL for an extracted digit string. -/
def billHistoryURL (num : Str) : Str :=
  strL "https://capitol.texas.gov/BillLookup/History.aspx?LegSess=87R&Bill=HB" ++ num

/-- `redirectors.house_bill`: the raw query must be ASCII, of length at
least 3, start with `h`/`H` then `b`/`B`, and continue with digits. -/
def house_bill (q : Str) : Result :=
  match q with
  | a :: b :: c :: rest =>
    if (a :: b :: c :: rest).all isAsciiCP && (a == 104 || a == 72) &&
        (b == 98 || b == 66) && (c :: rest).all isDigitCP then
      .redirect (billHistoryURL (c :: rest))
    else .notApplicable
  | _ => .notApplicable

/-- The main statute pattern has matched the canonicalized query with
code group `c1 c2` and section group `sect`. -/
abbrev statuteMatch (q : Str) (c1 c2 : Nat) (sect : Str) : Prop :=
  canonicalize q = c1 :: c2 :: sect ∧ isLowerAlnum c1 = true ∧
    isLowerAlnum c2 = true ∧ sect ≠ [] ∧ sect.all isSectionChar = true

/-- The claim's description of the bill-number input shape: ASCII, length
at least 3, `h`/`H` then `b`/`B`, then only decimal digits. -/
def hbShape (q : Str) : Bool :=
  q.all isAsciiCP && decide (3 ≤ q.length) &&
  (q.headD 0 == 104 || q.headD 0 == 72) &&
  ((q.drop 1).headD 0 == 98 || (q.drop 1).headD 0 == 66) &&
  (q.drop 2).all isDigitCP

/-! ## The resolution engine (`views.go`) -/

/-- A registered redirector: its function and the `__name__`, `title` and
`pattern` attributes read by the engine. -/
structure RedirInfo where
  run : Str → Result
  name : Str
  title : Option Str
  pat : Option Str

/-- One entry of the failure list: `(res[1], __name__, title, pattern)`. -/
abbrev Entry := Option Str × Str × Option Str × Option Str

/-- The engine's outcome: an HTTP 303 redirect, or the 404 message list. -/
inductive Outcome where
  | redirected (url : Str)
  | failed (messages : List Entry)
deriving DecidableEq, Repr

/-- The second component `res[1]` of a redirector's returned tuple. -/
def resultMessage : Result → Option Str
  | .redirect u => some u
  | .notApplicable => none
  | .rejected m => some m

/-- The loop of `views.go` over the remaining redirectors. -/
def resolveAux (q : Str) : List RedirInfo → Outcome
  | [] => .failed []
  | r :: rest =>
    match r.run q with
    | .redirect u => .redirected u
    | .notApplicable =>
      match resolveAux q rest with
      | .redirected u => .redirected u
      | .failed ms => .failed ((none, r.name, r.title, r.pat) :: ms)
    | .rejected m =>
      match resolveAux q rest with
      | .redirected u => .redirected u
      | .failed ms => .failed ((some m, r.name, r.title, r.pat) :: ms)

/-- `views.go` on a query: run every registered redirector in declared
order; the first `(True, url)` wins, otherwise all `(False, _)` results
are collected in order. -/
def resolve_all (rs : List RedirInfo) (q : Str) : Outcome := resolveAux q rs

/-- The `statute` entry of `REDIRECTORS`, with its attributes. -/
def statuteInfo : RedirInfo :=
  ⟨statute, strL "statute", some (strL "Constitution and statutes"),
   some (strL "<code><chapter>[.[<section|subchapter>]], cn<article>.<section>, cv<title>.<chapter>, cv<article>")⟩

/-- The `house_bill` entry of `REDIRECTORS`, with its attributes. -/
def houseBillInfo : RedirInfo :=
  ⟨house_bill, strL "house_bill", some (strL "House bill, by number"),
   some (strL "hb<number>")⟩

/-- `redirectors.REDIRECTORS`, the registered redirector list. -/
def REDIRECTORS : List RedirInfo := [statuteInfo, houseBillInfo]

/-- Whether a result is a `(True, url)` tuple. -/
def isRedirect : Result → Bool
  | .redirect _ => true
  | _ => false

/-- A stub redirector that always redirects to one fixed URL. -/
def stubA : RedirInfo :=
  ⟨fun _ => .redirect (strL "https://example.test/a"), strL "stub_a", none, none⟩

/-- A stub redirector that always redirects to another fixed URL. -/
def stubB : RedirInfo :=
  ⟨fun _ => .redirect (strL "https://example.test/b"), strL "stub_b", none, none⟩

/-! ## The calendar engine (`utils.py`)

Dates are proleptic Gregorian.  `ordinal y m d` is the day number of the
calendar date, counted with 0001-01-01 = day 1 (a Monday); `wd` is the
Python `date.weekday` convention, Monday = 0 .. Sunday = 6.  `arrow`'s
`shift(weekday=w)` (via `dateutil.relativedelta`) moves a date forward
to the next day whose weekday is `w`, staying put when it already is. -/

/-- Gregorian leap year. -/
def isLeap (y : Nat) : Bool :=
  (y % 4 == 0 && y % 100 != 0) || y % 400 == 0

/-- Days in the proleptic Gregorian calendar strictly before January 1
of year `y` (for `y ≥ 1`), counted from 0001-01-01 = day 1. -/
def daysBeforeYear (y : Nat) : Nat :=
  365 * (y - 1) + (y - 1) / 4 + (y - 1) / 400 - (y - 1) / 100

/-- Days strictly before the first of month `m` within a year. -/
def daysBeforeMonth (leap : Bool) (m : Nat) : Nat :=
  (match m with
   | 1 => 0 | 2 => 31 | 3 => 59 | 4 => 90 | 5 => 120 | 6 => 151
   | 7 => 181 | 8 => 212 | 9 => 243 | 10 => 273 | 11 => 304 | 12 => 334
   | _ => 0) +
  (if leap && decide (3 ≤ m) then 1 else 0)

/-- Day ordinal of a calendar date, with 0001-01-01 = day 1. -/
def ordinal (y m d : Nat) : Nat :=
  daysBeforeYear y + daysBeforeMonth (isLeap y) m + d

/-- Weekday of a day ordinal, Python convention: Monday = 0 .. Sunday = 6. -/
def wd (n : Nat) : Nat := (n + 6) % 7

/-- `shift(weekday=w)` on a day ordinal: the first day on or after `n`
whose weekday is `w`. -/
def shiftWeekday (n w : Nat) : Nat := n + (w + 7 - wd n) % 7

/-- A calendar date (a midnight `arrow` instant in the fixed zone). -/
structure CDate where
  year : Nat
  month : Nat
  day : Nat
deriving DecidableEq, Repr

/-- The day ordinal of a calendar date. -/
def cOrd (d : CDate) : Nat := ordinal d.year d.month d.day

/-- `utils.lege_year`: first year of the regular session. -/
def lege_year (n : Int) : Int := 1847 + 2 * n

/-- `utils.year_lege`: `(year - 1847) // 2` with Python floor division. -/
def year_lege (y : Int) : Int := Int.fdiv (y - 1847) 2

/-- `utils.prefiling_date`: the first Monday on or after November 8 of
the year before `lege_year n`, as a day ordinal. -/
def prefiling_date (n : Int) : Nat :=
  shiftWeekday (ordinal (lege_year n - 1).toNat 11 8) 0

/-- `utils.convening_date`: the first Tuesday on or after January 8 of
`lege_year n`, as a day ordinal. -/
def convening_date (n : Int) : Nat :=
  shiftWeekday (ordinal (lege_year n).toNat 1 8) 1

/-- `utils.adjourning_date`: 139 days after the convening date. -/
def adjourning_date (n : Int) : Nat := convening_date n + 139

/-- `utils.current_lege` on an explicit date (the `date=None` system-time
default is outside the embedding). -/
def current_lege (d : CDate) (prefiling : Bool) : Int :=
  let base := year_lege (d.year : Int)
  if d.year % 2 != 0 then
    if prefiling then base
    else if cOrd d < convening_date base then base - 1
    else base
  else
    if !prefiling then base
    else if prefiling_date (base + 1) ≤ cOrd d then base + 1
    else base

/-- Spec-side form of `currentLegislature` from §4.4 of the spec, for
comparison with the source-derived `current_lege`. -/
def currentLegislatureSpec (d : CDate) (p : Bool) : Int :=
  let base := year_lege (d.year : Int)
  if d.year % 2 == 1 then
    if p then base
    else if convening_date base ≤ cOrd d then base
    else base - 1
  else
    if !p then base
    else if prefiling_date (base + 1) ≤ cOrd d then base + 1
    else base

/-! ## Helper lemmas -/

theorem pyLower_idem (c : Nat) : pyLower (pyLower c) = pyLower c := by
  by_cases h : 65 ≤ c ∧ c ≤ 90
  · have h1 : pyLower c = c + 32 := by simp [pyLower, h]
    rw [h1, pyLower, if_neg (by omega)]
  · simp [pyLower, h]

theorem pyLower_space_iff (c : Nat) : pyLower c = 32 ↔ c = 32 := by
  unfold pyLower
  split <;> omega

theorem map_pyLower_removeSpaces (l : Str) :
    (removeSpaces l).map pyLower = removeSpaces (l.map pyLower) := by
  induction l with
  | nil => rfl
  | cons c t ih =>
    by_cases h : c = 32
    · subst h
      have h32 : pyLower 32 = 32 := rfl
      simp [removeSpaces, List.filter_cons, h32] at ih ⊢
      exact ih
    · have h2 : pyLower c ≠ 32 := fun he => h ((pyLower_space_iff c).mp he)
      simp [removeSpaces, List.filter_cons, h, h2] at ih ⊢
      exact ih

theorem removeSpaces_idem (l : Str) :
    removeSpaces (removeSpaces l) = removeSpaces l := by
  simp [removeSpaces, List.filter_filter]

theorem map_pyLower_idem (l : Str) :
    (l.map pyLower).map pyLower = l.map pyLower := by
  induction l with
  | nil => rfl
  | cons c t ih => simp [pyLower_idem, ih]

theorem wd_shiftWeekday (n w : Nat) (h : w < 7) : wd (shiftWeekday n w) = w := by
  simp only [wd, shiftWeekday]
  omega

theorem le_shiftWeekday (n w : Nat) : n ≤ shiftWeekday n w := by
  simp only [shiftWeekday]
  omega

theorem shiftWeekday_le (n w k : Nat) (h : w < 7) (hnk : n ≤ k) (hw : wd k = w) :
    shiftWeekday n w ≤ k := by
  simp only [wd, shiftWeekday] at *
  omega

theorem year_lege_lege_year (n : Int) : year_lege (lege_year n) = n := by
  unfold year_lege lege_year
  rw [Int.fdiv_eq_ediv _ (by omega)]
  omega

theorem resolveAux_cons_redirect (q : Str) (r : RedirInfo) (rest : List RedirInfo)
    (u : Str) (h : r.run q = .redirect u) :
    resolveAux q (r :: rest) = .redirected u := by
  simp [resolveAux, h]

theorem resolveAux_cons_nonredirect (q : Str) (r : RedirInfo) (rest : List RedirInfo)
    (h : isRedirect (r.run q) = false) :
    resolveAux q (r :: rest) =
      match resolveAux q rest with
      | .redirected u => .redirected u
      | .failed ms => .failed ((resultMessage (r.run q), r.name, r.title, r.pat) :: ms) := by
  cases hr : r.run q with
  | redirect u => rw [hr] at h; simp [isRedirect] at h
  | notApplicable => simp [resolveAux, hr, resultMessage]
  | rejected m => simp [resolveAux, hr, resultMessage]

/-! ## Claims -/

/-- C9: `canonicalize` is total and deterministic (it is a Lean function),
returns the query lowercased with all space characters removed, and is
idempotent: `canonicalize (canonicalize q) = canonicalize q` for every
query; moreover no space character survives it. -/
theorem canonicalize_idempotent (q : Str) :
    canonicalize (canonicalize q) = canonicalize q ∧ 32 ∉ canonicalize q := by
  constructor
  · show removeSpaces ((removeSpaces (q.map pyLower)).map pyLower) = _
    rw [map_pyLower_removeSpaces, map_pyLower_idem, removeSpaces_idem]
    rfl
  · simp [canonicalize, removeSpaces, List.mem_filter]

/-- C8: for every legislature number `n ≥ 12`, `convening_date n` is the
first Tuesday (weekday 1) on or after January 8 of `lege_year n`, and
`adjourning_date n` is exactly 139 days after it. -/
theorem convening_adjourning_spec (n : Int) (hn : 12 ≤ n) :
    wd (convening_date n) = 1 ∧
    ordinal (lege_year n).toNat 1 8 ≤ convening_date n ∧
    (∀ k, ordinal (lege_year n).toNat 1 8 ≤ k → wd k = 1 → convening_date n ≤ k) ∧
    adjourning_date n = convening_date n + 139 := by
  refine ⟨?_, ?_, ?_, rfl⟩
  · exact wd_shiftWeekday _ 1 (by omega)
  · exact le_shiftWeekday _ 1
  · exact fun k hk hw => shiftWeekday_le _ 1 k (by omega) hk hw

/-- C8 witness: the 88th Legislature's convening date falls on a Tuesday
and its adjourning date is 139 days later. -/
theorem convening_adjourning_spec_witness :
    wd (convening_date 88) = 1 ∧ adjourning_date 88 = convening_date 88 + 139 :=
  ⟨(convening_adjourning_spec 88 (by decide)).1,
   (convening_adjourning_spec 88 (by decide)).2.2.2⟩

/-- C3: `current_lege` agrees with the spec's description of
`currentLegislature` on every date and prefiling flag, and in particular
a date one day before a legislature's convening date (non-prefiling)
yields the previous legislature number while a date on or after it
yields that legislature's number. -/
theorem current_lege_spec :
    (∀ (d : CDate) (p : Bool), current_lege d p = currentLegislatureSpec d p) ∧
    (∀ (n : Int) (d : CDate), 12 ≤ n → (d.year : Int) = lege_year n →
      cOrd d + 1 = convening_date n → current_lege d false = n - 1) ∧
    (∀ (n : Int) (d : CDate), 12 ≤ n → (d.year : Int) = lege_year n →
      convening_date n ≤ cOrd d → current_lege d false = n) := by
  refine ⟨?_, ?_, ?_⟩
  · intro d p
    unfold current_lege currentLegislatureSpec
    rcases Nat.mod_two_eq_zero_or_one d.year with h | h <;>
      cases p <;>
        simp only [h] <;> simp <;> split <;> split <;> omega
  · intro n d hn hy hc
    have hy2 : (d.year : Int) = 1847 + 2 * n := by rw [hy]; rfl
    have hodd : d.year % 2 = 1 := by omega
    have hbase : year_lege (d.year : Int) = n := by rw [hy, year_lege_lege_year]
    unfold current_lege
    simp only [hodd, hbase]
    have hlt : cOrd d < convening_date n := by omega
    simp [hlt]
  · intro n d hn hy hge
    have hy2 : (d.year : Int) = 1847 + 2 * n := by rw [hy]; rfl
    have hodd : d.year % 2 = 1 := by omega
    have hbase : year_lege (d.year : Int) = n := by rw [hy, year_lege_lege_year]
    unfold current_lege
    simp only [hodd, hbase]
    have hlt : ¬ (cOrd d < convening_date n) := by omega
    simp [hlt]

/-- C3 witness: the 88th Legislature convened on 2023-01-10; the day
before it (non-prefiling) still belongs to the 87th, the day itself to
the 88th, and the general equality holds at a sample even-year date. -/
theorem current_lege_spec_witness :
    current_lege ⟨2023, 1, 9⟩ false = 87 ∧
    current_lege ⟨2023, 1, 10⟩ false = 88 ∧
    current_lege ⟨2022, 11, 14⟩ true = currentLegislatureSpec ⟨2022, 11, 14⟩ true := by
  refine ⟨?_, ?_, current_lege_spec.1 ⟨2022, 11, 14⟩ true⟩
  · have h := current_lege_spec.2.1 88 ⟨2023, 1, 9⟩ (by decide) (by decide) (by decide)
    omega
  · have h := current_lege_spec.2.2 88 ⟨2023, 1, 10⟩ (by decide) (by decide) (by decide)
    omega

theorem canonicalize_length_of_no_space (l : Str) (h : ∀ x ∈ l, x ≠ 32) :
    (canonicalize l).length = l.length := by
  unfold canonicalize removeSpaces
  rw [List.filter_eq_self.mpr, List.length_map]
  intro x hx
  obtain ⟨y, hy, rfl⟩ := List.mem_map.mp hx
  have hne : pyLower y ≠ 32 := fun he => h y hy ((pyLower_space_iff y).mp he)
  simpa using hne

/-- C4: if at least one redirector returns `Redirect`, the engine
returns the `Redirect` of the earliest such redirector in declared
order, regardless of what later redirectors return. -/
theorem resolve_all_first_redirect (rs1 : List RedirInfo) (r : RedirInfo)
    (rs2 : List RedirInfo) (q u : Str)
    (h1 : ∀ r' ∈ rs1, isRedirect (r'.run q) = false)
    (h2 : r.run q = .redirect u) :
    resolve_all (rs1 ++ r :: rs2) q = .redirected u := by
  induction rs1 with
  | nil =>
    exact resolveAux_cons_redirect q r rs2 u h2
  | cons a t ih =>
    have ha := h1 a (by simp)
    have ihh := ih fun r' hr' => h1 r' (List.mem_cons_of_mem a hr')
    show resolveAux q (a :: (t ++ r :: rs2)) = _
    rw [resolveAux_cons_nonredirect q a (t ++ r :: rs2) ha]
    rw [show resolveAux q (t ++ r :: rs2) = .redirected u from ihh]

/-- C4 witness: with two stub redirectors that both succeed, the engine
returns the first one's redirect. -/
theorem resolve_all_first_redirect_witness :
    resolve_all [stubA, stubB] (strL "anything") =
      .redirected (strL "https://example.test/a") :=
  resolve_all_first_redirect [] stubA [stubB] (strL "anything") _ (by simp) rfl

/-- C2 counterexample: on the query `???` every registered redirector
returns `NotApplicable`, yet the engine's outcome is not `Failed []`:
the failure list carries one (messageless) entry per redirector. -/
theorem resolve_all_failed_empty_cex :
    statute (strL "???") = .notApplicable ∧
    house_bill (strL "???") = .notApplicable ∧
    resolve_all REDIRECTORS (strL "???") ≠ .failed [] := by
  decide

/-- C2 amended: whenever no redirector returns a `Redirect`, the engine
returns `Failed` with exactly one entry per redirector — `Rejected`
results contribute their message and `NotApplicable` results contribute
a `None` message (they are not omitted) — in redirector order. -/
theorem resolve_all_collects (rs : List RedirInfo) (q : Str)
    (h : ∀ r ∈ rs, isRedirect (r.run q) = false) :
    resolve_all rs q =
      .failed (rs.map fun r => (resultMessage (r.run q), r.name, r.title, r.pat)) := by
  induction rs with
  | nil => rfl
  | cons a t ih =>
    have ha := h a (by simp)
    have ihh := ih fun r' hr' => h r' (List.mem_cons_of_mem a hr')
    show resolveAux q (a :: t) = _
    rw [resolveAux_cons_nonredirect q a t ha]
    rw [show resolveAux q t = _ from ihh]
    rfl

/-- C2 witness: on `???` both registered redirectors decline and the
engine returns the two-entry failure list. -/
theorem resolve_all_collects_witness :
    resolve_all REDIRECTORS (strL "???") =
      .failed [(none, strL "statute", statuteInfo.title, statuteInfo.pat),
               (none, strL "house_bill", houseBillInfo.title, houseBillInfo.pat)] :=
  (resolve_all_collects REDIRECTORS (strL "???") (by decide)).trans (by decide)

/-- C10: the registered set holds exactly the statute and house-bill
redirectors, `statute_toc` is not among them, and every query whose
canonical form is a bare valid two-letter code yields the `Failed`
outcome (with the engine's two messageless entries), not a redirect. -/
theorem redirectors_registered :
    REDIRECTORS.map (fun r => r.name) = [strL "statute", strL "house_bill"] ∧
    (∀ r ∈ REDIRECTORS, r.run ≠ statute_toc) ∧
    (∀ q : Str, (canonicalize q).map pyUpper ∈ VALID_CODES →
      resolve_all REDIRECTORS q =
        .failed [(none, strL "statute", statuteInfo.title, statuteInfo.pat),
                 (none, strL "house_bill", houseBillInfo.title, houseBillInfo.pat)]) := by
  refine ⟨by decide, ?_, ?_⟩
  · intro r hr
    have hr2 : r = statuteInfo ∨ r = houseBillInfo := by
      simpa [REDIRECTORS] using hr
    rcases hr2 with rfl | rfl
    · intro h
      exact absurd (congrFun h (strL "pe")) (by decide)
    · intro h
      exact absurd (congrFun h (strL "pe")) (by decide)
  · intro q hq
    have hlen2 : (canonicalize q).length = 2 := by
      have hall : ∀ x ∈ VALID_CODES, x.length = 2 := by decide
      have h2 := hall _ hq
      simpa using h2
    obtain ⟨a, b, hab⟩ := List.length_eq_two.mp hlen2
    have hst : statute q = .notApplicable := by
      simp [statute, hab]
    have hhb : house_bill q = .notApplicable := by
      match q with
      | [] => rfl
      | [x] => rfl
      | [x, y] => rfl
      | x :: y :: z :: rest =>
        simp only [house_bill]
        rw [if_neg]
        intro hcond
        simp only [Bool.and_eq_true, Bool.or_eq_true, beq_iff_eq,
          List.all_eq_true] at hcond
        obtain ⟨⟨⟨hascii, hx⟩, hy⟩, hdig⟩ := hcond
        have hns : ∀ c ∈ (x :: y :: z :: rest), c ≠ 32 := by
          intro c hc
          rcases List.mem_cons.mp hc with rfl | hc2
          · rcases hx with rfl | rfl <;> omega
          rcases List.mem_cons.mp hc2 with rfl | hc3
          · rcases hy with rfl | rfl <;> omega
          have hd := hdig c hc3
          simp only [isDigitCP, Bool.and_eq_true, decide_eq_true_eq] at hd
          omega
        have hlq := canonicalize_length_of_no_space (x :: y :: z :: rest) hns
        rw [hlen2] at hlq
        simp at hlq
    show resolveAux q REDIRECTORS = _
    rw [show REDIRECTORS = [statuteInfo, houseBillInfo] from rfl]
    rw [resolveAux_cons_nonredirect q statuteInfo _ (by simp [statuteInfo, hst, isRedirect])]
    rw [resolveAux_cons_nonredirect q houseBillInfo _ (by simp [houseBillInfo, hhb, isRedirect])]
    simp [resolveAux, statuteInfo, houseBillInfo, hst, hhb, resultMessage]

/-- C10 witness: the query `pe` (a bare valid code) produces the
`Failed` outcome with the two messageless entries. -/
theorem redirectors_registered_witness :
    resolve_all REDIRECTORS (strL "pe") =
      .failed [(none, strL "statute", statuteInfo.title, statuteInfo.pat),
               (none, strL "house_bill", houseBillInfo.title, houseBillInfo.pat)] :=
  redirectors_registered.2.2 (strL "pe") (by decide)

theorem statute_eq_body (q : Str) (c1 c2 : Nat) (sect : Str)
    (h : statuteMatch q c1 c2 sect) :
    statute q = statuteBody [pyUpper c1, pyUpper c2] sect := by
  obtain ⟨hq, h1, h2, hne, hall⟩ := h
  have hne2 : sect.isEmpty = false := by
    cases sect
    · exact absurd rfl hne
    · rfl
  simp [statute, hq, h1, h2, hne2, hall]

/-- C7: the bill-number redirector redirects to the fixed bill-history
URL parameterized by the digit string exactly when the raw query is
ASCII, of length at least 3, starts with `h`/`H` then `b`/`B`, and
continues with decimal digits only; it returns `NotApplicable` on every
other query and never returns `Rejected`. -/
theorem house_bill_spec (q : Str) :
    (hbShape q = true → house_bill q = .redirect (billHistoryURL (q.drop 2))) ∧
    (hbShape q = false → house_bill q = .notApplicable) ∧
    (∀ m, house_bill q ≠ .rejected m) := by
  match q with
  | [] =>
    refine ⟨fun h => by simp [hbShape] at h, fun _ => rfl, fun m => by simp [house_bill]⟩
  | [x] =>
    refine ⟨fun h => by simp [hbShape] at h, fun _ => rfl, fun m => by simp [house_bill]⟩
  | [x, y] =>
    refine ⟨fun h => by simp [hbShape] at h, fun _ => rfl, fun m => by simp [house_bill]⟩
  | x :: y :: z :: rest =>
    have hcond : hbShape (x :: y :: z :: rest) =
        ((x :: y :: z :: rest).all isAsciiCP && (x == 104 || x == 72) &&
          (y == 98 || y == 66) && (z :: rest).all isDigitCP) := by
      simp only [hbShape, List.headD, List.drop, List.length_cons]
      have h3 : decide (3 ≤ rest.length + 1 + 1 + 1) = true := by
        simp
      rw [h3, Bool.and_true]
    refine ⟨fun h => ?_, fun h => ?_, fun m => ?_⟩
    · rw [hcond] at h
      simp only [house_bill, h, if_true]
      rfl
    · rw [hcond] at h
      simp only [house_bill, h]
      rfl
    · simp only [house_bill]
      split <;> simp

/-- C7 witness: `HB21` and `hb007` redirect with bill numbers `21` and
`007`; `hb` and `sb21` are not applicable. -/
theorem house_bill_spec_witness :
    house_bill (strL "HB21") =
      .redirect (strL "https://capitol.texas.gov/BillLookup/History.aspx?LegSess=87R&Bill=HB21") ∧
    house_bill (strL "hb007") =
      .redirect (strL "https://capitol.texas.gov/BillLookup/History.aspx?LegSess=87R&Bill=HB007") ∧
    house_bill (strL "hb") = .notApplicable ∧
    house_bill (strL "sb21") = .notApplicable :=
  ⟨((house_bill_spec (strL "HB21")).1 (by decide)).trans (by decide),
   ((house_bill_spec (strL "hb007")).1 (by decide)).trans (by decide),
   (house_bill_spec (strL "hb")).2.1 (by decide),
   (house_bill_spec (strL "sb21")).2.1 (by decide)⟩

/-- C1 counterexample: `pe1.01` is matched with a non-civil code, passes
the shape check and has an interior dot with a digit after it, but the
redirect does carry a separate anchor (the whole section `1.01`): the
result is neither "chapter `1.01`, empty anchor" nor "chapter `1`, empty
anchor". -/
theorem statute_interior_dot_cex :
    statute (strL "pe1.01") =
      .redirect (strL "https://statutes.capitol.texas.gov/docs/PE/htm/PE.1.htm#1.01") ∧
    statute (strL "pe1.01") ≠ .redirect (docURL (strL "PE") (strL "1.01") []) ∧
    statute (strL "pe1.01") ≠ .redirect (docURL (strL "PE") (strL "1") []) := by
  decide

/-- C1 amended: for a matched non-civil code whose uppercased section
passes the shape check and contains an interior dot, the redirect is
built with chapter = the pre-dot part in both cases; the anchor is the
post-dot part when the character after the first dot is a letter, and
the entire section (post-dot included) otherwise — so `pe1.01` targets
code `PE`, chapter `1`, with anchor `1.01`. -/
theorem statute_interior_dot (q : Str) (c1 c2 : Nat) (sect : Str)
    (hm : statuteMatch q c1 c2 sect)
    (hvalid : VALID_CODES.contains [pyUpper c1, pyUpper c2] = true)
    (hcv : ([pyUpper c1, pyUpper c2] == strL "CV") = false)
    (hshape : sectionShapeOk (sect.map pyUpper) = true)
    (hdot : (sect.map pyUpper).dropLast.contains 46 = true) :
    statute q = .redirect (docURL [pyUpper c1, pyUpper c2]
      (splitDot (sect.map pyUpper)).1
      (if pyIsAlpha ((splitDot (sect.map pyUpper)).2.headD 0) then
        (splitDot (sect.map pyUpper)).2
      else sect.map pyUpper)) := by
  rw [statute_eq_body q c1 c2 sect hm]
  have hvalid2 : [pyUpper c1, pyUpper c2] ∈ VALID_CODES := by simpa using hvalid
  have hdot2 : 46 ∈ (sect.map pyUpper).dropLast := by simpa using hdot
  cases hsp : (splitDot (sect.map pyUpper)).2 with
  | nil =>
    simp [statuteBody, hvalid2, hcv, hshape, hdot2, hsp, pyIsAlpha]
  | cons a t =>
    cases hpa : pyIsAlpha a with
    | true => simp [statuteBody, hvalid2, hcv, hshape, hdot2, hsp, hpa]
    | false => simp [statuteBody, hvalid2, hcv, hshape, hdot2, hsp, hpa]

/-- C1 witness: `gv551.a` (letter after the dot) targets chapter `551`
and anchor `A`; `pe1.01` (digit after the dot) targets chapter `1` and
anchor `1.01`. -/
theorem statute_interior_dot_witness :
    statute (strL "gv551.a") =
      .redirect (strL "https://statutes.capitol.texas.gov/docs/GV/htm/GV.551.htm#A") ∧
    statute (strL "pe1.01") =
      .redirect (strL "https://statutes.capitol.texas.gov/docs/PE/htm/PE.1.htm#1.01") :=
  ⟨(statute_interior_dot (strL "gv551.a") 103 118 (strL "551.a")
      (by decide) (by decide) (by decide) (by decide) (by decide)).trans (by decide),
   (statute_interior_dot (strL "pe1.01") 112 101 (strL "1.01")
      (by decide) (by decide) (by decide) (by decide) (by decide)).trans (by decide)⟩

/-- C5 counterexample: `zz100` is rejected with the message
`The code of law you gave is invalid`, which differs (in its initial
capital) from the claimed exact message text. -/
theorem statute_code_check_cex :
    statute (strL "zz100") = .rejected msgInvalidCode ∧
    msgInvalidCode ≠ strL "the code of law you gave is invalid" := by
  decide

/-- C5 amended: a query matching the statute pattern whose uppercased
code is not in the code table is rejected with exactly the message
`The code of law you gave is invalid`; and once the code-table check and
the applicable shape check pass, the result is always a redirect. -/
theorem statute_code_check :
    (∀ (q : Str) (c1 c2 : Nat) (sect : Str), statuteMatch q c1 c2 sect →
      VALID_CODES.contains [pyUpper c1, pyUpper c2] = false →
      statute q = .rejected msgInvalidCode) ∧
    (∀ (q : Str) (c1 c2 : Nat) (sect : Str), statuteMatch q c1 c2 sect →
      VALID_CODES.contains [pyUpper c1, pyUpper c2] = true →
      (([pyUpper c1, pyUpper c2] == strL "CV") = true → sect.contains 46 = true →
        cvChapterOk (sect.map pyUpper) = true) →
      (([pyUpper c1, pyUpper c2] == strL "CV") = false →
        sectionShapeOk (sect.map pyUpper) = true) →
      ∃ u, statute q = .redirect u) := by
  constructor
  · intro q c1 c2 sect hm hbad
    have hbad2 : [pyUpper c1, pyUpper c2] ∉ VALID_CODES := by simpa using hbad
    rw [statute_eq_body q c1 c2 sect hm]
    simp [statuteBody, hbad2]
  · intro q c1 c2 sect hm hvalid hcvShape hsecShape
    rw [statute_eq_body q c1 c2 sect hm]
    unfold statuteBody
    repeat' split
    all_goals first
      | exact ⟨_, rfl⟩
      | simp_all
    all_goals repeat first
      | exact ⟨_, rfl⟩
      | split

/-- C5 witness: `zz100` is rejected with the capital-T message, and a
query passing every check (`gv551.a`) is redirected. -/
theorem statute_code_check_witness :
    statute (strL "zz100") = .rejected msgInvalidCode ∧
    (∃ u, statute (strL "gv551.a") = .redirect u) :=
  ⟨statute_code_check.1 (strL "zz100") 122 122 (strL "100") (by decide) (by decide),
   statute_code_check.2 (strL "gv551.a") 103 118 (strL "551.a") (by decide) (by decide)
     (fun hcv _ => absurd hcv (by decide)) (fun _ => by decide)⟩

/-- C6 counterexample: `cv./2` reaches the civil-statutes chapter check
and fails it; the rejection message is
`The Civil Statutes chapter number you gave is invalidly formatted`,
which differs (in its initial capital) from the claimed message text. -/
theorem statute_civil_cex :
    statute (strL "cv./2") = .rejected msgCvFormat ∧
    msgCvFormat ≠ strL "the Civil Statutes chapter number you gave is invalidly formatted" := by
  decide

/-- C6 amended: for a matched query with the civil-statutes code `CV`:
if the section contains a dot it must match the chapter pattern after
uppercasing — on success the chapter is the uppercased string with `/`
replaced by `_`, on failure the result is `Rejected` with exactly
`The Civil Statutes chapter number you gave is invalidly formatted`;
with no dot, the whole section is used verbatim as an article number
with the article-lookup template, so `cv6-1/2` redirects via the
article-lookup template with article `6-1/2`. -/
theorem statute_civil :
    (∀ (q : Str) (c1 c2 : Nat) (sect : Str), statuteMatch q c1 c2 sect →
      [pyUpper c1, pyUpper c2] = strL "CV" → sect.contains 46 = true →
      cvChapterOk (sect.map pyUpper) = true →
      statute q = .redirect (docURL (strL "CV")
        ((sect.map pyUpper).map (fun c => if c == 47 then 95 else c)) [])) ∧
    (∀ (q : Str) (c1 c2 : Nat) (sect : Str), statuteMatch q c1 c2 sect →
      [pyUpper c1, pyUpper c2] = strL "CV" → sect.contains 46 = true →
      cvChapterOk (sect.map pyUpper) = false →
      statute q = .rejected msgCvFormat) ∧
    (∀ (q : Str) (c1 c2 : Nat) (sect : Str), statuteMatch q c1 c2 sect →
      [pyUpper c1, pyUpper c2] = strL "CV" → sect.contains 46 = false →
      statute q = .redirect (articleURL (strL "CV") sect)) := by
  refine ⟨?_, ?_, ?_⟩
  · intro q c1 c2 sect hm hcode hdot hok
    have hdot2 : 46 ∈ sect := by simpa using hdot
    rw [statute_eq_body q c1 c2 sect hm, hcode]
    simp [statuteBody, hdot2, hok, show strL "CV" ∈ VALID_CODES from by decide]
  · intro q c1 c2 sect hm hcode hdot hbad
    have hdot2 : 46 ∈ sect := by simpa using hdot
    rw [statute_eq_body q c1 c2 sect hm, hcode]
    simp [statuteBody, hdot2, hbad, show strL "CV" ∈ VALID_CODES from by decide]
  · intro q c1 c2 sect hm hcode hdot
    have hdot2 : 46 ∉ sect := by simpa using hdot
    rw [statute_eq_body q c1 c2 sect hm, hcode]
    simp [statuteBody, hdot2, show strL "CV" ∈ VALID_CODES from by decide]

/-- C6 witness: `cv6-1/2` (no dot) redirects via the article-lookup
template with article `6-1/2`; `cv71.6-1/2` (dot, well-formed) redirects
with the slash replaced by an underscore; `cv1..2` (dot, malformed) is
rejected with the capital-T message. -/
theorem statute_civil_witness :
    statute (strL "cv6-1/2") =
      .redirect (strL "https://statutes.capitol.texas.gov/GetStatute.aspx?DocumentType=Word&Value=CV.6-1/2") ∧
    statute (strL "cv71.6-1/2") =
      .redirect (strL "https://statutes.capitol.texas.gov/docs/CV/htm/CV.71.6-1_2.htm#") ∧
    statute (strL "cv1..2") = .rejected msgCvFormat :=
  ⟨(statute_civil.2.2 (strL "cv6-1/2") 99 118 (strL "6-1/2")
      (by decide) (by decide) (by decide)).trans (by decide),
   (statute_civil.1 (strL "cv71.6-1/2") 99 118 (strL "71.6-1/2")
      (by decide) (by decide) (by decide) (by decide)).trans (by decide),
   statute_civil.2.1 (strL "cv1..2") 99 118 (strL "1..2")
      (by decide) (by decide) (by decide) (by decide)⟩
